import Mathlib

/-!
Verification development for the taggit template-tag module
(src/taggit/templatetags/taggit_tags.py).

The Python module is shallowly embedded: every function below mirrors one
piece of the source, statement by statement, including its observable bugs
(misparenthesised percent-formatting, adjacent string-literal concatenation
in getattr calls, the regular expression that in fact requires its
"optional" clauses, and the unconditional .split() calls on regex groups
that can be None).  Exceptions are modelled with the Except monad.
-/

/-- Python exception outcomes that the embedded code can produce. -/
inductive PyErr where
  | templateSyntaxError : String → PyErr
  | improperlyConfigured : String → PyErr
  | typeError : PyErr
  | attributeError : PyErr
  | indexError : PyErr
  | exc : String → PyErr
deriving DecidableEq

/-- Decidable equality for Except values, used to evaluate the embedded
functions on concrete inputs. -/
instance instDecEqExcept {ε α : Type} [DecidableEq ε] [DecidableEq α] :
    DecidableEq (Except ε α) := fun x y =>
  match x, y with
  | Except.ok a, Except.ok b =>
    match decEq a b with
    | isTrue h => isTrue (by rw [h])
    | isFalse h => isFalse (fun hc => h (Except.ok.inj hc))
  | Except.error e, Except.error f =>
    match decEq e f with
    | isTrue h => isTrue (by rw [h])
    | isFalse h => isFalse (fun hc => h (Except.error.inj hc))
  | Except.ok _, Except.error _ => isFalse (fun hc => Except.noConfusion hc)
  | Except.error _, Except.ok _ => isFalse (fun hc => Except.noConfusion hc)

/-- The single-quote character, used by the quoted-argument test of the for clause. -/
def squote : Char := Char.ofNat 39

/-- Python regex class \s for a byte string: space, tab, newline, carriage
return, vertical tab, form feed. -/
def pyIsSpace (c : Char) : Bool :=
  c = ' ' || c = '\t' || c = '\n' || c = '\r' || c = '\x0b' || c = '\x0c'

/-- Python regex class \w for a byte string without re.UNICODE: ASCII letters,
digits and underscore. -/
def pyIsWordChar (c : Char) : Bool :=
  ('a' ≤ c && c ≤ 'z') || ('A' ≤ c && c ≤ 'Z') || ('0' ≤ c && c ≤ '9') || c = '_'

/-- Python regex class \d for a byte string: ASCII digits. -/
def pyIsDigitChar (c : Char) : Bool := '0' ≤ c && c ≤ '9'

/-- The character class of the for-clause argument in the tag signature
regex: word characters, dot, single quote, double quote. -/
def isForClauseChar (c : Char) : Bool :=
  pyIsWordChar c || c = '.' || c = squote || c = '"'

/-- Matcher for the tail regex fragment (as clause then end of string).
Returns the word captured after the literal as. -/
def matchAsTail : List Char → Option String
  | 'a' :: 's' :: r =>
    let w := r.takeWhile pyIsSpace
    let r1 := r.dropWhile pyIsSpace
    let v := r1.takeWhile pyIsWordChar
    let r2 := r1.dropWhile pyIsWordChar
    if w.isEmpty || v.isEmpty then none
    else if r2.all pyIsSpace then some (String.mk v) else none
  | _ => none

/-- Matcher for the regex fragment covering a present limit clause followed
by mandatory whitespace and the as clause.  Returns the digit string of the
limit clause and the as variable. -/
def matchLimitThenAs : List Char → Option (String × String)
  | 'l' :: 'i' :: 'm' :: 'i' :: 't' :: r =>
    let w1 := r.takeWhile pyIsSpace
    let r1 := r.dropWhile pyIsSpace
    let d := r1.takeWhile pyIsDigitChar
    let r2 := r1.dropWhile pyIsDigitChar
    let w2 := r2.takeWhile pyIsSpace
    let r3 := r2.dropWhile pyIsSpace
    if w1.isEmpty || d.isEmpty || w2.isEmpty then none
    else (matchAsTail r3).map (fun v => (String.mk d, v))
  | _ => none

/-- Matcher for the part of the tag signature after the optional for clause:
a mandatory whitespace run of length wlen already consumed, then an optional
limit clause, then mandatory whitespace, then the as clause.  When the limit
clause is absent the two mandatory whitespace runs must both come from the
single run of length wlen, so wlen must be at least two.  This mirrors the
backtracking behaviour of the Python regex engine on the pattern. -/
def matchTail (wlen : Nat) (r : List Char) : Option (Option String × String) :=
  if wlen = 0 then none
  else
    match matchLimitThenAs r with
    | some dv => some (some dv.1, dv.2)
    | none =>
      if 2 ≤ wlen then (matchAsTail r).map (fun v => (none, v)) else none

/-- The three captured variables of the tag signature regex, already reduced
to the payload each group carries after the .split calls of lines 82 to 84:
the for-clause argument, the limit digit string, and the as variable.  A
group that did not participate in the match is none. -/
structure TagSigMatch where
  forvar : Option String
  limitvar : Option String
  asvar : String
deriving DecidableEq

/-- The tag signature regex of do_get_tag_list, lines 70 to 77 of the
source, as a deterministic matcher.  The pattern is anchored at both ends;
each alternative left by backtracking is either represented explicitly or
provably fails (the clause bodies contain no whitespace characters, so each
greedy run is forced). -/
def matchTagSignature (args : List Char) : Option TagSigMatch :=
  let w0 := args.takeWhile pyIsSpace
  let r0 := args.dropWhile pyIsSpace
  let noFor : Option TagSigMatch :=
    (matchTail w0.length r0).map (fun p => ⟨none, p.1, p.2⟩)
  match r0 with
  | 'f' :: 'o' :: 'r' :: rest =>
    let w1 := rest.takeWhile pyIsSpace
    let r1 := rest.dropWhile pyIsSpace
    let x := r1.takeWhile isForClauseChar
    let r2 := r1.dropWhile isForClauseChar
    if w1.isEmpty || x.isEmpty then noFor
    else
      let w2 := r2.takeWhile pyIsSpace
      let r3 := r2.dropWhile pyIsSpace
      match matchTail w2.length r3 with
      | some p => some ⟨some (String.mk x), p.1, p.2⟩
      | none => noFor
  | _ => noFor

/-- Python str.split(None, 1): strip leading whitespace, take the first
whitespace-delimited token, skip the separator run, and keep the rest of
the string verbatim when it is non-empty. -/
def pySplitNone1 (s : List Char) : List (List Char) :=
  let r1 := s.dropWhile pyIsSpace
  if r1.isEmpty then []
  else
    let tok := r1.takeWhile (fun c => !(pyIsSpace c))
    let rest := (r1.dropWhile (fun c => !(pyIsSpace c))).dropWhile pyIsSpace
    if rest.isEmpty then [tok] else [tok, rest]

/-- Substitute the first %s specifier of a format string.  Used only at the
sites where the source applies the percent operator with matching arity. -/
def substPctS : List Char → String → List Char
  | [], _ => []
  | '%' :: 's' :: rest, a => a.toList ++ rest
  | c :: rest, a => c :: substPctS rest a

/-- Substitute the first %r specifier of a format string. -/
def substPctR : List Char → String → List Char
  | [], _ => []
  | '%' :: 'r' :: rest, a => a.toList ++ rest
  | c :: rest, a => c :: substPctR rest a

/-- Python repr of a str value: the text between single quotes. -/
def pyRepr (s : String) : String := String.mk (squote :: s.toList ++ [squote])

/-- Percent-format a string through its single %s specifier. -/
def pyFmtS (fmt a : String) : String := String.mk (substPctS fmt.toList a)

/-- Percent-format a string through its single %r specifier. -/
def pyFmtR (fmt a : String) : String := String.mk (substPctR fmt.toList (pyRepr a))

/-- Python str.lower for ASCII text. -/
def pyLower (s : String) : String := String.mk (s.toList.map Char.toLower)

/-- Python str.split with a one-character separator: the list of chunks
between separator occurrences, keeping empty chunks. -/
def splitOnChar (sep : Char) : List Char → List (List Char)
  | [] => [[]]
  | c :: r =>
    let rest := splitOnChar sep r
    if c = sep then [] :: rest
    else
      match rest with
      | h :: t => (c :: h) :: t
      | [] => [[c]]

/-- Python str.split applied to a string with a one-character separator. -/
def pySplitOn (sep : Char) (s : String) : List String :=
  (splitOnChar sep s.toList).map String.mk

/-- Python int() applied to a non-empty ASCII digit string. -/
def digitsToNat (s : String) : Nat :=
  s.toList.foldl (fun n c => n * 10 + (c.toNat - 48)) 0

/-- The quoted-argument test of line 89: first character equals last
character and is one of the two quote characters. -/
def isQuoted (s : String) : Bool :=
  match s.toList, s.toList.getLast? with
  | c :: _, some d => (c = d) && (c = '"' || c = squote)
  | _, _ => false

/-- Python slicing s[1:-1]. -/
def stripEnds (s : String) : String := String.mk ((s.toList.drop 1).dropLast)

/-- The compiled node produced by do_get_tag_list, after the normalisation
performed by TagListNode.__init__ (lines 117 to 123): app_label and
model_name are lowercased when truthy and collapsed to None otherwise. -/
structure TagListNode where
  asvar : String
  app_label : Option String
  model_name : Option String
  content_qs_var : Option String
  limit : Option Nat
deriving DecidableEq

/-- The truthiness-guarded lowercasing of TagListNode.__init__:
value and value.lower() or None. -/
def truthyLower : Option String → Option String
  | none => none
  | some s => if s = "" then none else some (pyLower s)

/-- TagListNode.__init__. -/
def TagListNode.init (asvar : String) (app_label model_name content_qs_var : Option String)
    (limit : Option Nat) : TagListNode :=
  ⟨asvar, truthyLower app_label, truthyLower model_name, content_qs_var, limit⟩

/-- Lines 93 to 100 of the source applied to the quote-stripped for
argument: a dot-free value becomes the app label, a single dot splits into
app label and model name, and more than one dot hits the line 99 message
format, which applies a two-specifier format string to a single argument,
so CPython raises TypeError (not enough arguments for format string) before
the intended TemplateSyntaxError can be constructed. -/
def parseQuotedForvar (f : String) :
    Except PyErr (Option String × Option String × Option String) :=
  if (f.toList.contains '.') = false then Except.ok (some f, none, none)
  else
    match pySplitOn '.' f with
    | [a, b] => Except.ok (some a, some b, none)
    | _ => Except.error PyErr.typeError

/-- Lines 88 to 104 of the source: interpret the for-clause argument.
A quote-enclosed argument is stripped and read as an app label or an
app_label.model_name pair; an unquoted argument becomes the context
variable name for the content queryset. -/
def parseForvar (forvar : String) :
    Except PyErr (Option String × Option String × Option String) :=
  if forvar = "" then Except.ok (none, none, none)
  else if isQuoted forvar then parseQuotedForvar (stripEnds forvar)
  else Except.ok (none, none, some forvar)

/-- Lines 106 to 112 of the source: the limit digit string is converted
with int; a value of zero (the only non-positive value the regex lets
through) raises ValueError, whose handler formats a two-specifier message
with a single argument, so CPython raises TypeError instead of the intended
TemplateSyntaxError. -/
def parseLimit (limitvar : String) : Except PyErr (Option Nat) :=
  if limitvar = "" then Except.ok none
  else if digitsToNat limitvar = 0 then Except.error PyErr.typeError
  else Except.ok (some (digitsToNat limitvar))

/-- Lines 78 to 114 of the source, after the token has been split into the
tag name and its argument string.  A failed regex match reaches line 79,
whose message format has two %s specifiers but receives the single argument
tag_name, so CPython raises TypeError.  A match in which the for clause or
the limit clause did not participate reaches the unconditional .split()
calls of lines 82 and 83 on None and raises AttributeError. -/
def doGetTagListArgs (_tag_name : String) (args : List Char) : Except PyErr TagListNode :=
  match matchTagSignature args with
  | none => Except.error PyErr.typeError
  | some m =>
    match m.forvar, m.limitvar with
    | none, _ => Except.error PyErr.attributeError
    | some _, none => Except.error PyErr.attributeError
    | some forvar, some limitvar =>
      match parseForvar forvar with
      | Except.error e => Except.error e
      | Except.ok pfv =>
        match parseLimit limitvar with
        | Except.error e => Except.error e
        | Except.ok limit =>
          Except.ok (TagListNode.init m.asvar pfv.1 pfv.2.1 pfv.2.2 limit)

/-- The do_get_tag_list compile function (lines 63 to 114), applied to the
full token contents.  When the contents hold no argument after the tag name
the except branch of line 69 raises a TemplateSyntaxError whose message
formats the tag name with %r; when the contents are pure whitespace the
same branch indexes an empty list and raises IndexError. -/
def do_get_tag_list (contents : String) : Except PyErr TagListNode :=
  match pySplitNone1 contents.toList with
  | [t, a] => doGetTagListArgs (String.mk t) a
  | [t] =>
    Except.error (PyErr.templateSyntaxError
      (pyFmtR "\x27%r\x27 tag requires at least an \x27as\x27 clause" (String.mk t)))
  | _ => Except.error PyErr.indexError

/-!
The relation classifier is_generic_tagging (lines 29 to 59) and the model
metadata it inspects.  A through model is described by its _meta options:
the concrete fields (the ones listed by get_all_field_names and returned by
get_field_by_name) with their kind, the virtual fields with theirs, and the
app label and object name used by the render-time scope checks.
-/

/-- Kind of a concrete model field: a ForeignKey carries the related model
identifier (field.rel.to) and the reverse relation name (field.rel.relname,
used by the aggregate of line 177); any other field kind has no rel. -/
inductive FieldKind where
  | fk : String → String → FieldKind
  | plain : FieldKind
deriving DecidableEq

/-- Kind of a virtual field: a GenericForeignKey or anything else. -/
inductive VirtKind where
  | gfk : VirtKind
  | virtOther : VirtKind
deriving DecidableEq

/-- Whether a virtual field is a GenericForeignKey. -/
def VirtKind.isGfk : VirtKind → Bool
  | VirtKind.gfk => true
  | VirtKind.virtOther => false

/-- The slice of Django model _meta options that the module reads. -/
structure MetaInfo where
  fields : List (String × FieldKind)
  virtuals : List (String × VirtKind)
  app_label : String
  object_name : String
deriving DecidableEq

/-- Membership test of the Python expression
(name in opts.get_all_field_names()). -/
def namesContain : List String → String → Bool
  | [], _ => false
  | s :: ss, nm => if s = nm then true else namesContain ss nm

/-- opts.get_all_field_names(): the names of the concrete fields. -/
def get_all_field_names (m : MetaInfo) : List String := m.fields.map Prod.fst

/-- opts.get_field_by_name(name)[0]: the first concrete field with the
given name. -/
def lookupFieldKind : List (String × FieldKind) → String → Option FieldKind
  | [], _ => none
  | p :: ps, nm => if p.1 = nm then some p.2 else lookupFieldKind ps nm

/-- Field lookup on a through model. -/
def get_field_by_name (m : MetaInfo) (nm : String) : Option FieldKind :=
  lookupFieldKind m.fields nm

/-- The loop over opts.virtual_fields of lines 56 to 58: is there a
GenericForeignKey virtual field with the given name. -/
def hasGfkNamed : List (String × VirtKind) → String → Bool
  | [], _ => false
  | p :: ps, nm => if p.2.isGfk && p.1 = nm then true else hasGfkNamed ps nm

/-- is_generic_tagging (lines 29 to 59): False when content_object is a
concrete ForeignKey, True when it is absent from the concrete fields but a
GenericForeignKey virtual field of that name exists, ImproperlyConfigured
otherwise.  The through model argument stands for the repr of the model
formatted into the error message. -/
def is_generic_tagging (through_model_name : String) (opts : MetaInfo) : Except PyErr Bool :=
  let err_msg :=
    pyFmtS "The object %s doesn\x27t seem to be a valid through model for tagging"
      through_model_name
  if namesContain (get_all_field_names opts) "content_object" then
    match get_field_by_name opts "content_object" with
    | some (FieldKind.fk _ _) => Except.ok false
    | _ => Except.error (PyErr.improperlyConfigured err_msg)
  else if hasGfkNamed opts.virtuals "content_object" then Except.ok true
  else Except.error (PyErr.improperlyConfigured err_msg)

/-!
The render method of TagListNode (lines 125 to 184).  The Django ORM, the
content-type table, the template variable resolver and the third-party
generic_annotate helper are external collaborators; they are abstracted
into a World record of operations over an abstract queryset type Q, each of
which may raise.  The render body is written as one Except computation that
mirrors the try block statement by statement; the only context mutation of
the body (line 182) is its final statement, and the wrapping render
function realises the bare except of line 183 by discarding the error and
returning the empty string with the context untouched, exactly as the
Python code does.
-/

/-- A value held in the template context or produced by variable
resolution: either a queryset of the abstract type Q, or any other Python
object, identified by a tag. -/
inductive PyVal (Q : Type) where
  | qs : Q → PyVal Q
  | obj : Nat → PyVal Q
deriving DecidableEq

/-- The template context: an association list, most recent binding first. -/
abbrev Ctx (Q : Type) : Type := List (String × PyVal Q)

/-- context[asvar] = value (line 182). -/
def ctxSet {Q : Type} (ctx : Ctx Q) (k : String) (v : PyVal Q) : Ctx Q := (k, v) :: ctx

/-- A Django model class as the module uses it: its repr name, its _meta
options, and the queryset of Model.objects.all(). -/
structure PyModel (Q : Type) where
  name : String
  meta : MetaInfo
  allQs : Q

/-- The external collaborators of render: the configured model paths (the
module-level TAG_MODEL and TAGGED_ITEM_MODEL values), the app cache lookup
get_model, the _meta of related model classes, template variable
resolution, the content-type table, and the queryset operations.  Each
fallible operation returns Except. -/
structure World (Q : Type) where
  TAG_MODEL : String
  TAGGED_ITEM_MODEL : String
  get_model : String → String → Except PyErr (PyModel Q)
  modelMeta : String → MetaInfo
  resolveVar : String → Ctx Q → Except PyErr (PyVal Q)
  contentTypeGet : String → String → Except PyErr Nat
  filterContentType : Q → Nat → Except PyErr Q
  filterContentTypeApp : Q → String → Except PyErr Q
  filterContentIn : Q → PyVal Q → Except PyErr Q
  genericAnnotate : Q → Q → Except PyErr Q
  filterLookup : Q → String → Q → Except PyErr Q
  annotateCount : Q → String → Except PyErr Q
  qsSlice : Q → Nat → Q
  orderByCountDesc : Q → Q
  qsModel : Q → String

/-- get_model(*path.split(".")) as on lines 128 and 130: a path with other
than one dot passes the wrong number of arguments to get_model and raises
TypeError. -/
def getModelFromPath {Q : Type} (w : World Q) (path : String) : Except PyErr (PyModel Q) :=
  match pySplitOn '.' path with
  | [a, b] => w.get_model a b
  | _ => Except.error PyErr.typeError

/-- What render returns: Python None on the successful fall-off-the-end
path, or a string. -/
inductive RenderOut where
  | pyNone : RenderOut
  | str : String → RenderOut
deriving DecidableEq

/-- Lines 133 and 134: when content_qs_var is set, resolve it in the
context and keep the value (the self.content_qs attribute). -/
def resolveContentQs {Q : Type} (w : World Q) (n : TagListNode) (ctx : Ctx Q) :
    Except PyErr (Option (PyVal Q)) :=
  match n.content_qs_var with
  | some v =>
    match w.resolveVar v ctx with
    | Except.ok x => Except.ok (some x)
    | Except.error e => Except.error e
  | none => Except.ok none

/-- Lines 144 to 150: scope the tagged-item queryset of the generic path by
content type when an app label (and possibly a model name) is set. -/
def genericScopeFilter {Q : Type} (w : World Q) (n : TagListNode) (gqs : Q) :
    Except PyErr Q :=
  match n.app_label, n.model_name with
  | some al, some mn =>
    match w.contentTypeGet al mn with
    | Except.error e => Except.error e
    | Except.ok ct => w.filterContentType gqs ct
  | some al, none => w.filterContentTypeApp gqs al
  | none, _ => Except.ok gqs

/-- Lines 152 and 153: restrict the generic queryset to the resolved
content queryset when one was stored on the node. -/
def genericContentFilter {Q : Type} (w : World Q) (gqs : Q) (cq : Option (PyVal Q)) :
    Except PyErr Q :=
  match cq with
  | some c => w.filterContentIn gqs c
  | none => Except.ok gqs

/-- The generic-tagging branch of render (lines 138 to 154 and 182). -/
def renderGeneric {Q : Type} (w : World Q) (n : TagListNode) (ctx : Ctx Q)
    (tag_model through_model : PyModel Q) (cq : Option (PyVal Q)) :
    Except PyErr (Ctx Q × RenderOut) :=
  match genericScopeFilter w n through_model.allQs with
  | Except.error e => Except.error e
  | Except.ok g1 =>
    match genericContentFilter w g1 cq with
    | Except.error e => Except.error e
    | Except.ok g2 =>
      match w.genericAnnotate tag_model.allQs g2 with
      | Except.error e => Except.error e
      | Except.ok annotated =>
        Except.ok (ctxSet ctx n.asvar (PyVal.qs annotated), RenderOut.pyNone)

/-- Lines 177 to 182: the closing aggregate of the model-specific branch.
The tag field lookup mirrors through_opts.get_field_by_name on line 177: a
missing field raises FieldDoesNotExist and a non-relational field has rel
None, so reading rel.relname raises AttributeError. -/
def renderModelSpecificFinish {Q : Type} (w : World Q) (n : TagListNode) (ctx : Ctx Q)
    (qs : Q) (through_model : PyModel Q) : Except PyErr (Ctx Q × RenderOut) :=
  match get_field_by_name through_model.meta "tag" with
  | some (FieldKind.fk _ relname) =>
    match w.annotateCount qs relname with
    | Except.error e => Except.error e
    | Except.ok qs1 =>
      let qs2 := match n.limit with
        | some l => w.qsSlice qs1 l
        | none => qs1
      Except.ok (ctxSet ctx n.asvar (PyVal.qs (w.orderByCountDesc qs2)), RenderOut.pyNone)
  | some FieldKind.plain => Except.error PyErr.attributeError
  | none => Except.error (PyErr.exc "FieldDoesNotExist")

/-- Lines 166 to 176: the model-specific branch after the scope checks.
When content_qs_var is set it is resolved a second time (line 169) and the
sanity check of line 170 short-circuits to an empty string unless the value
is a queryset over the content model. -/
def renderModelSpecificQuery {Q : Type} (w : World Q) (n : TagListNode) (ctx : Ctx Q)
    (tag_model through_model : PyModel Q) (tgt : String) :
    Except PyErr (Ctx Q × RenderOut) :=
  match n.content_qs_var with
  | some v =>
    match w.resolveVar v ctx with
    | Except.error e => Except.error e
    | Except.ok (PyVal.qs q) =>
      if w.qsModel q = tgt then
        match w.filterLookup tag_model.allQs
            (pyFmtS "%s__content_object__in" (pyLower through_model.meta.object_name)) q with
        | Except.error e => Except.error e
        | Except.ok qs2 => renderModelSpecificFinish w n ctx qs2 through_model
      else Except.ok (ctx, RenderOut.str "")
    | Except.ok (PyVal.obj _) => Except.ok (ctx, RenderOut.str "")
  | none => renderModelSpecificFinish w n ctx tag_model.allQs through_model

/-- Lines 158 to 165: the scope checks of the model-specific branch.  An
app label different from the content model app label, or a model name
different from the content model object name, returns the empty string
directly. -/
def renderModelSpecificScoped {Q : Type} (w : World Q) (n : TagListNode) (ctx : Ctx Q)
    (tag_model through_model : PyModel Q) (tgt : String) :
    Except PyErr (Ctx Q × RenderOut) :=
  match n.app_label with
  | some al =>
    if al ≠ pyLower ((w.modelMeta tgt).app_label) then Except.ok (ctx, RenderOut.str "")
    else
      match n.model_name with
      | some mn =>
        if mn ≠ pyLower ((w.modelMeta tgt).object_name) then Except.ok (ctx, RenderOut.str "")
        else renderModelSpecificQuery w n ctx tag_model through_model tgt
      | none => renderModelSpecificQuery w n ctx tag_model through_model tgt
  | none => renderModelSpecificQuery w n ctx tag_model through_model tgt

/-- Line 157: content_model = through_opts.get_field_by_name
("content_object")[0].rel.to, then the scoped model-specific branch. -/
def renderModelSpecific {Q : Type} (w : World Q) (n : TagListNode) (ctx : Ctx Q)
    (tag_model through_model : PyModel Q) : Except PyErr (Ctx Q × RenderOut) :=
  match get_field_by_name through_model.meta "content_object" with
  | some (FieldKind.fk tgt _) =>
    renderModelSpecificScoped w n ctx tag_model through_model tgt
  | some FieldKind.plain => Except.error PyErr.attributeError
  | none => Except.error (PyErr.exc "FieldDoesNotExist")

/-- The try block of render (lines 126 to 182) as one Except computation. -/
def renderBody {Q : Type} (w : World Q) (n : TagListNode) (ctx : Ctx Q) :
    Except PyErr (Ctx Q × RenderOut) :=
  match getModelFromPath w w.TAG_MODEL with
  | Except.error e => Except.error e
  | Except.ok tag_model =>
    match getModelFromPath w w.TAGGED_ITEM_MODEL with
    | Except.error e => Except.error e
    | Except.ok through_model =>
      match resolveContentQs w n ctx with
      | Except.error e => Except.error e
      | Except.ok cq =>
        match is_generic_tagging through_model.name through_model.meta with
        | Except.error e => Except.error e
        | Except.ok true => renderGeneric w n ctx tag_model through_model cq
        | Except.ok false => renderModelSpecific w n ctx tag_model through_model

/-- TagListNode.render (lines 125 to 184): the bare except of line 183
turns any exception of the body into an empty string, leaving the context
exactly as it was (the only context write of the body is its final
statement, so a raised exception can never have mutated the context). -/
def render {Q : Type} (w : World Q) (n : TagListNode) (ctx : Ctx Q) : Ctx Q × RenderOut :=
  match renderBody w n ctx with
  | Except.ok r => r
  | Except.error _ => (ctx, RenderOut.str "")

/-!
The tag-cloud weight calculator.  In the source tree the get_tag_cloud
implementation of taggit_tags.py is an empty stub (do_get_tag_cloud, lines
186 to 188, compiles nothing and TagCloudNode.render, lines 190 to 195,
returns the empty string); the working weight calculator lives in the
repository sibling module that duplicates these tags, which is not part of
the provided sources.  It is therefore modelled from the specification.
Weights are exact rationals; the float values of the spec examples are all
exactly representable.
-/

/-- The smallest frequency of a non-empty collection (Python min). -/
def fMin : List ℚ → ℚ
  | [] => 0
  | f :: fs => fs.foldl min f

/-- The largest frequency of a non-empty collection (Python max). -/
def fMax : List ℚ → ℚ
  | [] => 0
  | f :: fs => fs.foldl max f

/-- Modelled from the spec: the per-tag weight of the tag-cloud calculator,
absent from the provided sources (the src TagCloudNode is a stub).  Spec
4.3: when f_max equals f_min every weight is the configured maximum, which
avoids a division by zero; otherwise weight(f) = t_max - (f_max - f) *
(t_max - t_min) / (f_max - f_min). -/
def cloudWeight (tmin tmax fmin fmax f : ℚ) : ℚ :=
  if fmax = fmin then tmax
  else tmax - (fmax - f) * (tmax - tmin) / (fmax - fmin)

/-- Modelled from the spec: the weights attached to an ordered collection
of tag frequencies, one per tag; an empty collection yields an empty output
with no weight computation attempted (spec 4.3, edge case). -/
def cloudWeights (tmin tmax : ℚ) (fs : List ℚ) : List ℚ :=
  match fs with
  | [] => []
  | _ :: _ => fs.map (cloudWeight tmin tmax (fMin fs) (fMax fs))

/-!
The module-level configuration reads (lines 16 to 24).  Lines 19 to 21
each lack the comma between the attribute name and the intended default, so
Python concatenates the two adjacent string literals into a single
attribute name and calls the two-argument getattr, which raises
AttributeError when the attribute is undefined; lines 23 and 24 are
well-formed three-argument getattr calls with defaults.
-/

/-- A value held in a Django settings object. -/
inductive SettingVal where
  | str : String → SettingVal
  | num : ℚ → SettingVal
deriving DecidableEq

/-- A Django settings object: the attributes it defines. -/
structure PySettings where
  attrs : List (String × SettingVal)
deriving DecidableEq

/-- Two-argument getattr: AttributeError when the name is undefined. -/
def getattrNoDefault (s : PySettings) (name : String) : Except PyErr SettingVal :=
  match s.attrs.find? (fun p => p.1 == name) with
  | some p => Except.ok p.2
  | none => Except.error PyErr.attributeError

/-- Three-argument getattr: the default when the name is undefined. -/
def getattrDefault (s : PySettings) (name : String) (d : SettingVal) : SettingVal :=
  match s.attrs.find? (fun p => p.1 == name) with
  | some p => p.2
  | none => d

/-- The five module-level configuration values. -/
structure TaggitConfig where
  tagModel : SettingVal
  taggedItemModel : SettingVal
  tagFieldRelatedName : SettingVal
  maxWeight : SettingVal
  minWeight : SettingVal
deriving DecidableEq

/-- Lines 16 to 24 of the source, run at import time.  The first three
reads pass the concatenation of the attribute name and the intended default
as the attribute name of a two-argument getattr (the missing-comma bug), so
each raises AttributeError when that concatenated name is undefined; the
two weight reads carry real defaults. -/
def loadTaggitConfig (s : PySettings) : Except PyErr TaggitConfig :=
  match getattrNoDefault s "TAGGIT_TAG_MODELtaggit.Tag" with
  | Except.error e => Except.error e
  | Except.ok tm =>
    match getattrNoDefault s "TAGGIT_TAGGED_ITEM_MODELtaggit.TaggedItem" with
    | Except.error e => Except.error e
    | Except.ok tim =>
      match getattrNoDefault s "TAGGIT_TAG_FIELD_RELATED_NAMEtaggit_taggeditem_items" with
      | Except.error e => Except.error e
      | Except.ok rn =>
        Except.ok
          ⟨tm, tim, rn,
           getattrDefault s "TAGGIT_TAGCLOUD_MAX_WEIGHT" (SettingVal.num 6),
           getattrDefault s "TAGGIT_TAGCLOUD_MIN_WEIGHT" (SettingVal.num 1)⟩

/-!
Theorems.  The helper lemmas relate the two field-lookup interfaces the
source mixes (get_all_field_names membership and get_field_by_name) and
record the scope-exclusivity of the for-clause interpretation; the claim
theorems follow.
-/

/-- A name found by field lookup is listed among the field names. -/
theorem namesContain_of_lookup (fs : List (String × FieldKind)) (nm : String)
    (k : FieldKind) (h : lookupFieldKind fs nm = some k) :
    namesContain (fs.map Prod.fst) nm = true := by
  induction fs with
  | nil => simp [lookupFieldKind] at h
  | cons p ps ih =>
    by_cases hp : p.1 = nm
    · simp [namesContain, hp]
    · simp only [lookupFieldKind, hp, if_false] at h
      simp only [List.map_cons, namesContain, hp, if_false]
      exact ih h

/-- A through model whose content_object field is a concrete ForeignKey
classifies as model-specific. -/
theorem isGen_of_fk (nm : String) (m : MetaInfo) (tgt rn : String)
    (h : get_field_by_name m "content_object" = some (FieldKind.fk tgt rn)) :
    is_generic_tagging nm m = Except.ok false := by
  have hc : namesContain (get_all_field_names m) "content_object" = true :=
    namesContain_of_lookup m.fields _ _ h
  unfold is_generic_tagging
  rw [hc]
  simp [h]

/-- C1: a through model whose declared content_object field is a direct
foreign key classifies as model-specific (False); one that instead carries
a GenericForeignKey virtual field of that name classifies as generic
(True); one with neither pattern raises ImproperlyConfigured. -/
theorem is_generic_tagging_classification (nm : String) (m : MetaInfo) :
    (∀ tgt rn, get_field_by_name m "content_object" = some (FieldKind.fk tgt rn) →
      is_generic_tagging nm m = Except.ok false)
    ∧ (namesContain (get_all_field_names m) "content_object" = false →
       hasGfkNamed m.virtuals "content_object" = true →
       is_generic_tagging nm m = Except.ok true)
    ∧ ((∀ tgt rn, get_field_by_name m "content_object" ≠ some (FieldKind.fk tgt rn)) →
       (namesContain (get_all_field_names m) "content_object" = true ∨
        hasGfkNamed m.virtuals "content_object" = false) →
       ∃ msg, is_generic_tagging nm m = Except.error (PyErr.improperlyConfigured msg)) := by
  refine ⟨fun tgt rn h => isGen_of_fk nm m tgt rn h, ?_, ?_⟩
  · intro hno hgfk
    unfold is_generic_tagging
    rw [hno, hgfk]
    simp
  · intro hnofk hside
    unfold is_generic_tagging
    rcases hc : namesContain (get_all_field_names m) "content_object" with _ | _
    · rcases hside with hside | hside
      · rw [hc] at hside; cases hside
      · rw [hside]
        simp
    · simp only [if_true]
      rcases hk : get_field_by_name m "content_object" with _ | k
      · simp
      · cases k with
        | fk tgt rn => exact absurd hk (hnofk tgt rn)
        | plain => simp

/-- Witness for C1 at three concrete through models: a ForeignKey
content_object, a GenericForeignKey content_object, and a plain
content_object field. -/
theorem is_generic_tagging_classification_witness :
    is_generic_tagging "TaggedItem"
      ⟨[("content_object", FieldKind.fk "DirectFood" "tagged_items"),
        ("tag", FieldKind.fk "Tag" "items")], [], "taggit", "TaggedItem"⟩ = Except.ok false
    ∧ is_generic_tagging "TaggedItem"
      ⟨[("content_type", FieldKind.fk "ContentType" "tagged_items"),
        ("object_id", FieldKind.plain)],
       [("content_object", VirtKind.gfk)], "taggit", "TaggedItem"⟩ = Except.ok true
    ∧ ∃ msg, is_generic_tagging "TaggedItem"
      ⟨[("content_object", FieldKind.plain)], [], "taggit", "TaggedItem"⟩ =
        Except.error (PyErr.improperlyConfigured msg) := by
  refine ⟨?_, ?_, ?_⟩
  · exact (is_generic_tagging_classification "TaggedItem" _).1 "DirectFood" "tagged_items"
      (by decide)
  · exact (is_generic_tagging_classification "TaggedItem" _).2.1 (by decide) (by decide)
  · exact (is_generic_tagging_classification "TaggedItem" _).2.2
      (fun tgt rn h => by simp [get_field_by_name, lookupFieldKind] at h) (Or.inl (by decide))

/-- C2: on the frequencies 1, 3, 5 with default bounds 1 and 6, the weights
are 1, 3.5, 6, and each equals t_max - (f_max - f)(t_max - t_min)/(f_max -
f_min). -/
theorem cloud_weights_example :
    cloudWeights 1 6 [1, 3, 5] = [1, 7/2, 6]
    ∧ cloudWeights 1 6 [1, 3, 5] =
        [1, 3, 5].map (fun f => 6 - (5 - f) * (6 - 1) / (5 - 1)) := by
  constructor <;> norm_num [cloudWeights, cloudWeight, fMin, fMax]

/-- C3: on a non-empty collection whose minimum and maximum frequencies
coincide, every weight is the configured maximum, with no division
performed. -/
theorem cloud_weights_uniform (tmin tmax : ℚ) (fs : List ℚ)
    (hne : fs ≠ []) (huniform : fMin fs = fMax fs) :
    cloudWeights tmin tmax fs = fs.map (fun _ => tmax) := by
  cases fs with
  | nil => exact absurd rfl hne
  | cons f fs =>
    have h : fMax (f :: fs) = fMin (f :: fs) := huniform.symm
    have hfun : cloudWeight tmin tmax (fMin (f :: fs)) (fMax (f :: fs)) = (fun _ => tmax) := by
      funext x
      rw [cloudWeight, h]
      simp
    show (f :: fs).map (cloudWeight tmin tmax (fMin (f :: fs)) (fMax (f :: fs))) =
      (f :: fs).map (fun _ => tmax)
    rw [hfun]

/-- Witness for C3 on the uniform frequency collection 4, 4, 4. -/
theorem cloud_weights_uniform_witness :
    cloudWeights 1 6 [4, 4, 4] = [(4:ℚ), 4, 4].map (fun _ => (6:ℚ)) :=
  cloud_weights_uniform 1 6 [4, 4, 4] (by decide) (by norm_num [fMin, fMax])

/-- C4: whenever the try body of render raises, render returns the empty
string and the context it was given, unchanged, so the target variable is
never set. -/
theorem render_swallows_exceptions {Q : Type} (w : World Q) (n : TagListNode)
    (ctx : Ctx Q) (e : PyErr) (h : renderBody w n ctx = Except.error e) :
    render w n ctx = (ctx, RenderOut.str "") := by
  unfold render
  rw [h]

/-- A world in which the app cache raises on every model lookup. -/
def failWorld : World Unit :=
  ⟨"taggit.Tag", "taggit.TaggedItem",
   fun _ _ => Except.error (PyErr.exc "AppCacheNotReady"),
   fun _ => ⟨[], [], "", ""⟩,
   fun _ _ => Except.error (PyErr.exc "VariableDoesNotExist"),
   fun _ _ => Except.error (PyErr.exc "DoesNotExist"),
   fun q _ => Except.ok q, fun q _ => Except.ok q, fun q _ => Except.ok q,
   fun q _ => Except.ok q, fun q _ _ => Except.ok q, fun q _ => Except.ok q,
   fun q _ => q, fun q => q, fun _ => ""⟩

/-- Witness for C4: under the failing world the render of a plain node
produces the empty string and leaves the empty context empty. -/
theorem render_swallows_exceptions_witness :
    render failWorld ⟨"tags", none, none, none, none⟩ [] = ([], RenderOut.str "") :=
  render_swallows_exceptions failWorld ⟨"tags", none, none, none, none⟩ []
    (PyErr.exc "AppCacheNotReady") (by rfl)

/-- C5 evaluation: a limit of 0 and a limit of -5 are both rejected at
compile time, but with TypeError (the misparenthesised message formats of
lines 79 and 111), not with the TemplateSyntaxError the claim states. -/
theorem limit_nonpositive_typeerror :
    do_get_tag_list "get_tag_list for entries limit 0 as tags" = Except.error PyErr.typeError
    ∧ do_get_tag_list "get_tag_list for entries limit -5 as tags" =
        Except.error PyErr.typeError :=
  ⟨by decide, by decide⟩

/-- C6 evaluation: an argument string holding only the as clause fails to
compile with TypeError, as does one holding for and as separated by single
spaces; with a double space the regex matches without the limit group and
line 83 raises AttributeError.  No invocation omitting an optional clause
yields a node. -/
theorem optional_clauses_not_optional :
    do_get_tag_list "get_tag_list as tags" = Except.error PyErr.typeError
    ∧ do_get_tag_list "get_tag_list for entries as tags" = Except.error PyErr.typeError
    ∧ do_get_tag_list "get_tag_list for entries  as tags" = Except.error PyErr.attributeError :=
  ⟨by decide, by decide, by decide⟩

/-- C7 evaluation: an argument string that does not match the grammar is
rejected with TypeError raised while the line 79 message is formatted, not
with a TemplateSyntaxError. -/
theorem invalid_args_typeerror :
    do_get_tag_list "get_tag_list blah blah" = Except.error PyErr.typeError := by decide

/-- C9 evaluation: with no taggit settings defined, and even with the
documented TAGGIT_TAG_MODEL setting defined, the module-level configuration
reads raise AttributeError, because the missing commas of lines 19 to 21
turn each intended default into part of the looked-up attribute name. -/
theorem taggit_config_load_fails :
    loadTaggitConfig ⟨[]⟩ = Except.error PyErr.attributeError
    ∧ loadTaggitConfig ⟨[("TAGGIT_TAG_MODEL", SettingVal.str "taggit.Tag"),
        ("TAGGIT_TAGGED_ITEM_MODEL", SettingVal.str "taggit.TaggedItem")]⟩ =
      Except.error PyErr.attributeError :=
  ⟨by decide, by decide⟩

/-- A quoted for argument never sets the content queryset variable. -/
theorem parseQuotedForvar_scope (f : String)
    (r : Option String × Option String × Option String)
    (h : parseQuotedForvar f = Except.ok r) : r.2.2 = none := by
  unfold parseQuotedForvar at h
  split at h
  · cases h
    rfl
  · split at h
    · cases h
      rfl
    · exact Except.noConfusion h

/-- The for-clause interpretation sets at most one of the app-label scope
and the content queryset variable. -/
theorem parseForvar_scope (f : String)
    (r : Option String × Option String × Option String)
    (h : parseForvar f = Except.ok r) :
    r.2.2 = none ∨ (r.1 = none ∧ r.2.1 = none) := by
  unfold parseForvar at h
  split at h
  · cases h
    left
    rfl
  · split at h
    · exact Or.inl (parseQuotedForvar_scope _ r h)
    · cases h
      right
      exact ⟨rfl, rfl⟩

/-- C10: every node produced by a successful get_tag_list compilation has
at most one of the application-label scope and the context-collection
variable set: a node with the content queryset variable set has neither an
app label nor a model name, and vice versa. -/
theorem node_scope_exclusive (contents : String) (node : TagListNode)
    (h : do_get_tag_list contents = Except.ok node) :
    node.content_qs_var = none ∨ (node.app_label = none ∧ node.model_name = none) := by
  unfold do_get_tag_list at h
  split at h
  · unfold doGetTagListArgs at h
    split at h
    · exact Except.noConfusion h
    · split at h
      · exact Except.noConfusion h
      · exact Except.noConfusion h
      · split at h
        · exact Except.noConfusion h
        · split at h
          · exact Except.noConfusion h
          · cases h
            rename_i fv lv hfv hlv x1 pfv hpf x2 lim hlim
            rcases parseForvar_scope fv pfv hpf with hc | ⟨ha, hb⟩
            · exact Or.inl hc
            · refine Or.inr ⟨?_, ?_⟩
              · show truthyLower pfv.1 = none
                rw [ha]
                rfl
              · show truthyLower pfv.2.1 = none
                rw [hb]
                rfl
  · exact Except.noConfusion h
  · exact Except.noConfusion h

/-- Witness for C10 at a fully spelled-out invocation. -/
theorem node_scope_exclusive_witness :
    (⟨"tags", none, none, some "obj_list", some 5⟩ : TagListNode).content_qs_var = none
    ∨ ((⟨"tags", none, none, some "obj_list", some 5⟩ : TagListNode).app_label = none
       ∧ (⟨"tags", none, none, some "obj_list", some 5⟩ : TagListNode).model_name = none) :=
  node_scope_exclusive "get_tag_list for obj_list limit 5 as tags"
    ⟨"tags", none, none, some "obj_list", some 5⟩ (by decide)

/-- C8: on the model-specific path, a render whose node is scoped by an app
label that differs from the content model app label, or by a matching app
label and a model name that differs from the content model object name,
returns the empty string without raising and without touching the
context. -/
theorem render_wrong_scope_empty {Q : Type} (w : World Q) (n : TagListNode)
    (ctx : Ctx Q) (tm thr : PyModel Q) (tgt rn : String)
    (h1 : getModelFromPath w w.TAG_MODEL = Except.ok tm)
    (h2 : getModelFromPath w w.TAGGED_ITEM_MODEL = Except.ok thr)
    (h3 : n.content_qs_var = none)
    (h4 : get_field_by_name thr.meta "content_object" = some (FieldKind.fk tgt rn))
    (h5 : ∃ al, n.app_label = some al ∧
      (al ≠ pyLower ((w.modelMeta tgt).app_label) ∨
       ∃ mn, n.model_name = some mn ∧ mn ≠ pyLower ((w.modelMeta tgt).object_name))) :
    render w n ctx = (ctx, RenderOut.str "") := by
  obtain ⟨al, hal, hcase⟩ := h5
  have hres : resolveContentQs w n ctx = Except.ok none := by
    unfold resolveContentQs
    rw [h3]
  have hgen : is_generic_tagging thr.name thr.meta = Except.ok false :=
    isGen_of_fk thr.name thr.meta tgt rn h4
  unfold render renderBody
  rw [h1, h2, hres]
  dsimp only
  rw [hgen]
  dsimp only
  unfold renderModelSpecific
  rw [h4]
  dsimp only
  unfold renderModelSpecificScoped
  rw [hal]
  dsimp only
  by_cases hne : al = pyLower ((w.modelMeta tgt).app_label)
  · rcases hcase with hcase | ⟨mn, hmn, hmnne⟩
    · exact absurd hne hcase
    · rw [if_neg (not_not.mpr hne), hmn]
      dsimp only
      rw [if_pos hmnne]
  · rw [if_pos hne]

/-- The Tag model of the witness world. -/
def tagModelW : PyModel Unit :=
  ⟨"Tag", ⟨[("name", FieldKind.plain)], [], "taggit", "Tag"⟩, ()⟩

/-- The through model of the witness world: a model-specific TaggedItem
whose content_object foreign key points at the Food model. -/
def taggedItemW : PyModel Unit :=
  ⟨"TaggedItem",
   ⟨[("content_object", FieldKind.fk "Food" "tagged_items"),
     ("tag", FieldKind.fk "Tag" "taggit_taggeditem_items")],
    [], "taggit", "TaggedItem"⟩, ()⟩

/-- A world configured for model-specific tagging of the Food model of the
tests app. -/
def scopedWorld : World Unit :=
  ⟨"taggit.Tag", "taggit.TaggedItem",
   fun a b =>
     if a = "taggit" && b = "Tag" then Except.ok tagModelW
     else if a = "taggit" && b = "TaggedItem" then Except.ok taggedItemW
     else Except.error (PyErr.exc "ImproperlyConfigured"),
   fun tgt => if tgt = "Food" then ⟨[], [], "tests", "Food"⟩ else ⟨[], [], "", ""⟩,
   fun _ _ => Except.error (PyErr.exc "VariableDoesNotExist"),
   fun _ _ => Except.error (PyErr.exc "DoesNotExist"),
   fun q _ => Except.ok q, fun q _ => Except.ok q, fun q _ => Except.ok q,
   fun q _ => Except.ok q, fun q _ _ => Except.ok q, fun q _ => Except.ok q,
   fun q _ => q, fun q => q, fun _ => "Food"⟩

/-- Witness for C8: scoping the Food-specific world by the app label news
renders the empty string and leaves the context empty. -/
theorem render_wrong_scope_empty_witness :
    render scopedWorld ⟨"tags", some "news", none, none, none⟩ [] = ([], RenderOut.str "") :=
  render_wrong_scope_empty scopedWorld ⟨"tags", some "news", none, none, none⟩ []
    tagModelW taggedItemW "Food" "tagged_items"
    (by rfl) (by rfl) rfl (by rfl) ⟨"news", rfl, Or.inl (by decide)⟩
